import Mathlib

/-!
Shallow embedding of the game-counter bot (src/main.py, src/config.py).

Modelling choices:
* Calendar dates are integer day ordinals (`Int`); `date.isoformat()` is
  injective, so the history map is keyed by the date itself and the
  record's `date` field stores the date ordinal.
* A persisted day record is a Python dict whose keys may be absent, so
  every field of `DayRecord` is an `Option`: `none` means the key is
  absent; for fields whose JSON value may itself be `null`, the value
  type is again an `Option`.
* The program state `BotState` carries the state-file contents (`file`,
  what `load_vacation_history` would return) and the in-memory
  `vacation_status_cache` (`cache`).  Each top-level operation performs
  load → modify → save, which here is reading `file` and returning an
  updated `BotState`.
* `datetime.now().isoformat()` timestamps are threaded in as a `now`
  string parameter; `bot.send_message` outcomes are threaded in as a
  `sendOk : Bool` parameter (false models a raised `TelegramError`,
  which the source catches), and a successfully delivered channel
  message is returned as `some text`.
* `MESSAGE_TEMPLATE.format(n)` for a template with a single `\x7b\x7d`
  placeholder is modelled by the pair of strings around the placeholder.
-/

namespace GameCounter

/-- One persisted day record (a JSON object whose keys may be absent). -/
structure DayRecord where
  date : Option Int
  day_status : Option (Option String)
  question_sent : Option Bool
  question_sent_at : Option (Option String)
  answered : Option Bool
  answered_at : Option (Option String)
  answer_source : Option (Option String)
  message_sent : Option Bool
  message_sent_at : Option (Option String)
deriving DecidableEq, Repr

/-- The on-disk JSON object: a map from date key to day record. -/
def History := Int → Option DayRecord

/-- The empty history (`{}` in the source). -/
def emptyHistory : History := fun _ => none

/-- `history[key] = info` : update the map at one key. -/
def hupdate (h : History) (d : Int) (r : DayRecord) : History :=
  fun k => if k = d then some r else h k

/-- A record with every key absent (`history.get(key, \x7b\x7d)` default). -/
def emptyRecord : DayRecord :=
  ⟨none, none, none, none, none, none, none, none, none⟩

/-- Configuration drawn from src/config.py / environment variables. -/
structure Config where
  START_DATE : Int
  templatePre : String
  templateSuf : String
  VACATION_HASHTAG : String
  BOSS_USERNAME : String
  BOSS_CHAT_ID : Option String
deriving DecidableEq, Repr

/-- Program state: persisted file contents plus the in-memory cache. -/
structure BotState where
  file : History
  cache : Int → Option Bool

/-- Cache update `vacation_status_cache[target_date] = b`. -/
def cupdate (c : Int → Option Bool) (d : Int) (b : Bool) : Int → Option Bool :=
  fun k => if k = d then some b else c k

/-- The initial program state: no state file yet, empty cache. -/
def initState : BotState := ⟨emptyHistory, fun _ => none⟩

/-- What `json.load` of the state file produced, as seen by
`load_vacation_history`: the file may be missing, unreadable or
unparseable (an exception, caught), parse to a non-dict JSON value, or
parse to a dict. -/
inductive FileRead where
  | missing
  | readError
  | parsedNonDict
  | parsedDict (h : History)

/-- `load_vacation_history` (src/main.py:65-77): returns the parsed
dict, and degrades to `\x7b\x7d` on a missing file, an exception, or a
non-dict JSON value. -/
def load_vacation_history : FileRead → History
  | .parsedDict h => h
  | _ => emptyHistory

/-- `_ensure_day_record` (src/main.py:89-105): takes the in-memory
history dict, fills in the `date` key and `setdefault`s every other
field of the record for `target_date`, stores it back into the dict and
returns it.  It performs no file write. -/
def ensure_day_record (h : History) (target_date : Int) :
    DayRecord × History :=
  let info := (h target_date).getD emptyRecord
  let info : DayRecord :=
    { date := some (info.date.getD target_date)
      day_status := some (info.day_status.getD none)
      question_sent := some (info.question_sent.getD false)
      question_sent_at := some (info.question_sent_at.getD none)
      answered := some (info.answered.getD false)
      answered_at := some (info.answered_at.getD none)
      answer_source := some (info.answer_source.getD none)
      message_sent := some (info.message_sent.getD false)
      message_sent_at := some (info.message_sent_at.getD none) }
  (info, hupdate h target_date info)

/-- The record `_ensure_day_record` creates for a date that has no
record yet: all documented default field values. -/
def defaultRecord (d : Int) : DayRecord :=
  ⟨some d, some none, some false, some none, some false, some none,
   some none, some false, some none⟩

/-- `set_day_status` (src/main.py:108-124): writes the cache entry,
loads the history, ensures the record, sets `day_status`,
`answer_source`, `answered`, `answered_at`, and saves. -/
def set_day_status (s : BotState) (target_date : Int) (is_vacation : Bool)
    (source : String) (now : String) : BotState :=
  let cache := cupdate s.cache target_date is_vacation
  let info := (ensure_day_record s.file target_date).1
  let info := { info with
    day_status := some (some (if is_vacation then "vacation" else "work"))
    answer_source := some (some source)
    answered := some true
    answered_at := some (some now) }
  ⟨hupdate s.file target_date info, cache⟩

/-- `get_vacation_status_for_date` (src/main.py:127-141): cache hit
returns the cached value; cache miss reads the raw record from the
loaded history (no ensure), returns false for a missing record, and
otherwise caches and returns `day_status == "vacation"`. -/
def get_vacation_status_for_date (s : BotState) (target_date : Int) :
    Bool × BotState :=
  match s.cache target_date with
  | some b => (b, s)
  | none =>
    match s.file target_date with
    | none => (false, s)
    | some info =>
      let is_vacation := info.day_status.getD none = some "vacation"
      (is_vacation, ⟨s.file, cupdate s.cache target_date is_vacation⟩)

/-- Python truthiness of a string-or-None value (`not info.get(...)`). -/
def strTruthy : Option String → Bool
  | none => false
  | some s => s ≠ ""

/-- `mark_question_sent_for_date` (src/main.py:144-152): loads, ensures,
sets `question_sent`, sets `question_sent_at` only when not already a
truthy value, saves. -/
def mark_question_sent_for_date (s : BotState) (target_date : Int)
    (now : String) : BotState :=
  let info := (ensure_day_record s.file target_date).1
  let info := { info with
    question_sent := some true
    question_sent_at :=
      if strTruthy (info.question_sent_at.getD none) then
        info.question_sent_at
      else some (some now) }
  ⟨hupdate s.file target_date info, s.cache⟩

/-- `mark_message_sent_for_date` (src/main.py:155-161): loads, ensures,
sets `message_sent` and `message_sent_at`, saves. -/
def mark_message_sent_for_date (s : BotState) (target_date : Int)
    (now : String) : BotState :=
  let info := (ensure_day_record s.file target_date).1
  let info := { info with
    message_sent := some true
    message_sent_at := some (some now) }
  ⟨hupdate s.file target_date info, s.cache⟩

/-- `_calculate_day_number_for_date` (src/main.py:171-175):
`(target_date - START_DATE).days + 1`. -/
def calculate_day_number_for_date (cfg : Config) (target_date : Int) : Int :=
  target_date - cfg.START_DATE + 1

/-- `MESSAGE_TEMPLATE.format(n)` for the single-placeholder template. -/
def formatMessage (cfg : Config) (n : Int) : String :=
  cfg.templatePre ++ toString n ++ cfg.templateSuf

/-- `check_and_send_message` (src/main.py:251-288) for a given `today`:
loads the history, ensures today's record (in memory only), returns
doing nothing unless the record is answered and not yet message_sent;
otherwise formats the day-counter text, appends the vacation hashtag
iff `day_status == "vacation"`, sends it to the channel and, only on a
successful send (`sendOk`), marks the message sent.  A raised send
error (`sendOk = false`) is caught, so nothing is marked and the state
is unchanged.  Returns the new state and the delivered channel message,
if any. -/
def check_and_send_message (cfg : Config) (s : BotState) (today : Int)
    (now : String) (sendOk : Bool) : BotState × Option String :=
  let info := (ensure_day_record s.file today).1
  if !(info.answered.getD false) then
    (s, none)
  else if info.message_sent.getD false then
    (s, none)
  else
    let current_day := calculate_day_number_for_date cfg today
    let base := formatMessage cfg current_day
    let message_text :=
      if info.day_status.getD none = some "vacation" then
        base ++ cfg.VACATION_HASHTAG
      else base
    if sendOk then
      (mark_message_sent_for_date s today now, some message_text)
    else
      (s, none)

/-- An inbound platform user identity. -/
structure User where
  id : Int
  username : Option String
deriving DecidableEq, Repr

/-- An inbound update; `effective_user` may be absent. -/
structure Update where
  effective_user : Option User
deriving DecidableEq, Repr

/-- `str.lower()`, character by character (exact on the ASCII alphabet
of platform usernames). -/
def pyLower (s : String) : String := ⟨s.data.map Char.toLower⟩

/-- Python `int(s)` on a decimal string: optional sign then digits;
anything else raises `ValueError`, modelled as `none`. -/
def parsePyInt (s : String) : Option Int :=
  let core : List Char → Option Nat := fun ds =>
    if ds ≠ [] ∧ ds.all Char.isDigit then
      some (ds.foldl (fun a c => a * 10 + (c.toNat - 48)) 0)
    else none
  match s.data with
  | '-' :: rest => (core rest).map (fun n => -(n : Int))
  | '+' :: rest => (core rest).map (fun n => (n : Int))
  | ds => (core ds).map (fun n => (n : Int))

/-- `is_boss_user` (src/main.py:178-194): false without an effective
user; if `BOSS_CHAT_ID` is truthy and parses as an int and equals the
user's id, true; otherwise (including an unparseable `BOSS_CHAT_ID`,
whose `ValueError` is caught) falls back to a case-insensitive
comparison of the username with `BOSS_USERNAME`. -/
def is_boss_user (cfg : Config) (update : Update) : Bool :=
  match update.effective_user with
  | none => false
  | some user =>
    let byId :=
      if strTruthy cfg.BOSS_CHAT_ID then
        match parsePyInt (cfg.BOSS_CHAT_ID.getD "") with
        | some boss_id => user.id = boss_id
        | none => false
      else false
    if byId then true
    else
      match user.username with
      | none => false
      | some username =>
        username ≠ "" ∧ pyLower username = pyLower cfg.BOSS_USERNAME

/-- The username-fallback comparison on its own (the last two lines of
`is_boss_user`): `bool(username and username.lower() ==
BOSS_USERNAME.lower())`. -/
def username_fallback (cfg : Config) (user : User) : Bool :=
  match user.username with
  | none => false
  | some username =>
    username ≠ "" ∧ pyLower username = pyLower cfg.BOSS_USERNAME

/-- `handle_callback` (src/main.py:413-470), after the platform layer:
the callback payload has been split into its action part and the
optional parsed target date (`none` models a missing or unparseable
date suffix, which falls back to `today`).  Unauthorized users get a
denial reply; a yes/no action records the status via `set_day_status`
and composes a confirmation that differs between an answer about today
and an answer about another date; only for an answer about today is
`check_and_send_message` then invoked.  Returns the new state, the
edited reply to the presser, and the delivered channel message, if
any. -/
def handle_callback (cfg : Config) (s : BotState) (update : Update)
    (action : String) (parsedTarget : Option Int) (today : Int)
    (now : String) (sendOk : Bool) :
    BotState × Option String × Option String :=
  if !is_boss_user cfg update then
    (s, some "У вас нет прав для выполнения этого действия.", none)
  else
    let target_date := parsedTarget.getD today
    let is_today := target_date = today
    if action = "vacation_yes" then
      let s := set_day_status s target_date true "boss_button" now
      let reply :=
        if is_today then
          "Понял, Босс, отдыхайте и набирайтесь сил, сегодня неплохой для этого день"
        else
          "Ответ получен, Босс. Заношу информацию, что день " ++
            toString target_date ++ " был выходным."
      if is_today then
        let r := check_and_send_message cfg s today now sendOk
        (r.1, some reply, r.2)
      else
        (s, some reply, none)
    else if action = "vacation_no" then
      let s := set_day_status s target_date false "boss_button" now
      let reply :=
        if is_today then
          "Отлично, Босс, не перетруждайтесь, продуктивного Вам дня!"
        else
          "Ответ получен, Босс. Заношу информацию, что день " ++
            toString target_date ++ " был рабочим."
      if is_today then
        let r := check_and_send_message cfg s today now sendOk
        (r.1, some reply, r.2)
      else
        (s, some reply, none)
    else
      (s, none, none)

/-- The record's `answered` flag as the publisher reads it: false when
the date has no record or the key is absent. -/
def answeredFlag (h : History) (d : Int) : Bool :=
  match h d with
  | none => false
  | some r => r.answered.getD false

/-- The record's `message_sent` flag, read the same way. -/
def messageSentFlag (h : History) (d : Int) : Bool :=
  match h d with
  | none => false
  | some r => r.message_sent.getD false

/-- States reachable from the initial empty store through the store's
operations (the question marker, the answer recorder, the cache reader
and the publisher), with arbitrary dates, flags, timestamps and send
outcomes. -/
inductive Reachable (cfg : Config) : BotState → Prop where
  | init : Reachable cfg initState
  | step_set (s : BotState) (d : Int) (v : Bool) (src now : String) :
      Reachable cfg s → Reachable cfg (set_day_status s d v src now)
  | step_get (s : BotState) (d : Int) :
      Reachable cfg s → Reachable cfg (get_vacation_status_for_date s d).2
  | step_markq (s : BotState) (d : Int) (now : String) :
      Reachable cfg s → Reachable cfg (mark_question_sent_for_date s d now)
  | step_check (s : BotState) (d : Int) (now : String) (ok : Bool) :
      Reachable cfg s →
      Reachable cfg (check_and_send_message cfg s d now ok).1

/-! Concrete fixtures used to instantiate the theorems. -/

/-- A concrete configuration: campaign starts at day 100, template
`Day \x7b\x7d`, boss id "1", boss username "boss". -/
def cfgW : Config := ⟨100, "Day ", "", "\n#tag", "boss", some "1"⟩

/-- A configuration whose `BOSS_CHAT_ID` is set but not numeric. -/
def cfgBadId : Config := ⟨100, "Day ", "", "\n#tag", "boss", some "xy"⟩

/-- A record that has been answered (work day) and nothing else. -/
def recAnswered : DayRecord := { emptyRecord with answered := some true }

/-- A state whose file holds an answered, not-yet-published record for
day 105. -/
def sAnswered : BotState :=
  ⟨hupdate emptyHistory 105 recAnswered, fun _ => none⟩

/-- The state after recording a vacation answer for day 105 and then
publishing for day 105, starting from the initial state. -/
def sPublished : BotState :=
  (check_and_send_message cfgW
    (set_day_status initState 105 true "boss_button" "t") 105 "t" true).1

/-! Helper lemmas about the history-map update. -/

@[simp] theorem hupdate_self (h : History) (d : Int) (r : DayRecord) :
    hupdate h d r d = some r := by simp [hupdate]

theorem hupdate_other (h : History) (d k : Int) (r : DayRecord)
    (hk : k ≠ d) : hupdate h d r k = h k := by simp [hupdate, hk]

theorem hupdate_hupdate (h : History) (d : Int) (r r' : DayRecord) :
    hupdate (hupdate h d r) d r' = hupdate h d r' := by
  funext k
  by_cases hk : k = d <;> simp [hupdate, hk]



/-- C4 counterexample: the publisher invokes ensure for day 0 (which
does create the default record in the in-memory dict), yet the
resulting program state's file still has no record for day 0 —
ensureRecord itself persists nothing. -/
theorem C4_counterexample :
    (ensure_day_record emptyHistory 0).2 0 = some (defaultRecord 0) ∧
    (check_and_send_message cfgW initState 0 "t" true).1.file 0 = none := by
  decide

/-- C4 amended: ensure creates the default record in the in-memory
history when absent; persistence happens through the caller's save. -/
theorem C4_ensure_creates_defaults :
    (∀ (h : History) (d : Int), h d = none →
      ensure_day_record h d = (defaultRecord d, hupdate h d (defaultRecord d))) ∧
    (∀ (s : BotState) (d : Int) (v : Bool) (src now : String),
      ((set_day_status s d v src now).file d).isSome = true) := by
  constructor
  · intro h d hd
    simp [ensure_day_record, hd, defaultRecord, emptyRecord]
  · intro s d v src now
    simp [set_day_status]

theorem C4_witness :
    emptyHistory 0 = none ∧
    ensure_day_record emptyHistory 0 =
      (defaultRecord 0, hupdate emptyHistory 0 (defaultRecord 0)) :=
  ⟨rfl, C4_ensure_creates_defaults.1 emptyHistory 0 rfl⟩

/-- C3 counterexample: with the numeric boss id "1" configured, the
user with id 2 (≠ 1) whose username matches case-insensitively is still
authorized — the code falls back to the username check even when an id
is configured. -/
theorem C3_counterexample :
    cfgW.BOSS_CHAT_ID = some "1" ∧ parsePyInt "1" = some 1 ∧
    is_boss_user cfgW ⟨some ⟨2, some "Boss"⟩⟩ = true := by
  decide

/-- C3 amended: full characterization of the authorization check. -/
theorem C3_is_boss_user_characterization :
    ∀ (cfg : Config) (u : Update),
      is_boss_user cfg u = true ↔
        ∃ user, u.effective_user = some user ∧
          ((∃ str bid, cfg.BOSS_CHAT_ID = some str ∧ str ≠ "" ∧
              parsePyInt str = some bid ∧ user.id = bid) ∨
           (∃ un, user.username = some un ∧ un ≠ "" ∧
              pyLower un = pyLower cfg.BOSS_USERNAME)) := by
  intro cfg u
  cases hu : u.effective_user with
  | none => simp [is_boss_user, hu]
  | some user =>
    simp only [is_boss_user, hu]
    cases hc : cfg.BOSS_CHAT_ID with
    | none =>
      simp only [strTruthy, hc]
      cases hun : user.username with
      | none => simp [hun]
      | some un => simp [hun]
    | some str =>
      by_cases hs : str = ""
      · subst hs
        simp only [strTruthy, hc]
        cases hun : user.username with
        | none => simp [hun]
        | some un => simp [hun]
      · simp only [strTruthy, hc, Option.getD_some]
        cases hp : parsePyInt str with
        | none =>
          simp only [hp]
          cases hun : user.username with
          | none => simp [hun, hs, hp]
          | some un => simp [hun, hs, hp]
        | some bid =>
          by_cases hid : user.id = bid
          · simp [hp, hid, hs]
          · simp only [hp]
            cases hun : user.username with
            | none =>
              simp [hun, hs, hp, hid]
              exact fun hb => hid hb.symm
            | some un =>
              simp [hun, hs, hp, hid]
              intro hb
              exact absurd hb.symm hid

/-- C10: the gate is total and never raises by construction; without an
effective user it returns false, and with an unparseable boss chat id
(the caught ValueError) it falls back to the username comparison. -/
theorem C10_is_boss_user_total :
    ∀ (cfg : Config) (u : Update),
      (u.effective_user = none → is_boss_user cfg u = false) ∧
      (∀ user, u.effective_user = some user →
        parsePyInt (cfg.BOSS_CHAT_ID.getD "") = none →
        is_boss_user cfg u = username_fallback cfg user) := by
  intro cfg u
  constructor
  · intro hu; simp [is_boss_user, hu]
  · intro user hu hp
    cases hc : cfg.BOSS_CHAT_ID with
    | none => simp [is_boss_user, hu, hc, strTruthy, username_fallback]
    | some str =>
      rw [hc] at hp
      simp only [Option.getD_some] at hp
      by_cases hs : str = ""
      · subst hs
        simp [is_boss_user, hu, hc, strTruthy, username_fallback]
      · simp [is_boss_user, hu, hc, strTruthy, hs, hp, username_fallback]

theorem C10_witness :
    parsePyInt (cfgBadId.BOSS_CHAT_ID.getD "") = none ∧
    is_boss_user cfgBadId ⟨some ⟨7, some "BOSS"⟩⟩ =
      username_fallback cfgBadId ⟨7, some "BOSS"⟩ :=
  ⟨by decide,
    (C10_is_boss_user_total cfgBadId ⟨some ⟨7, some "BOSS"⟩⟩).2
      ⟨7, some "BOSS"⟩ rfl (by decide)⟩




/-- C8: a missing, unreadable or non-dict state file loads as the empty
store, and ensuring a record on that empty store yields the fresh
default record (the embedding is total, so nothing raises). -/
theorem C8_load_failure_degrades_to_empty_store :
    ∀ (d : Int) (h : History),
      load_vacation_history .missing = emptyHistory ∧
      load_vacation_history .readError = emptyHistory ∧
      load_vacation_history .parsedNonDict = emptyHistory ∧
      load_vacation_history (.parsedDict h) = h ∧
      (ensure_day_record (load_vacation_history .missing) d).1 =
        defaultRecord d ∧
      (ensure_day_record (load_vacation_history .readError) d).1 =
        defaultRecord d ∧
      (ensure_day_record (load_vacation_history .parsedNonDict) d).1 =
        defaultRecord d := by
  intro d h
  refine ⟨rfl, rfl, rfl, rfl, rfl, rfl, rfl⟩

/-- C9: ensuring a day record twice yields the same `date` field and is
in fact fully idempotent, and an ensure never resets a field that is
already present in the stored record. -/
theorem C9_ensure_day_record_idempotent :
    (∀ (h : History) (d : Int),
      (ensure_day_record (ensure_day_record h d).2 d).1.date =
        (ensure_day_record h d).1.date ∧
      ensure_day_record (ensure_day_record h d).2 d =
        ensure_day_record h d) ∧
    (∀ (h : History) (d : Int) (r : DayRecord), h d = some r →
      (∀ v, r.date = some v → (ensure_day_record h d).1.date = some v) ∧
      (∀ v, r.day_status = some v →
        (ensure_day_record h d).1.day_status = some v) ∧
      (∀ v, r.question_sent = some v →
        (ensure_day_record h d).1.question_sent = some v) ∧
      (∀ v, r.question_sent_at = some v →
        (ensure_day_record h d).1.question_sent_at = some v) ∧
      (∀ v, r.answered = some v →
        (ensure_day_record h d).1.answered = some v) ∧
      (∀ v, r.answered_at = some v →
        (ensure_day_record h d).1.answered_at = some v) ∧
      (∀ v, r.answer_source = some v →
        (ensure_day_record h d).1.answer_source = some v) ∧
      (∀ v, r.message_sent = some v →
        (ensure_day_record h d).1.message_sent = some v) ∧
      (∀ v, r.message_sent_at = some v →
        (ensure_day_record h d).1.message_sent_at = some v)) := by
  constructor
  · intro h d
    have hmain : ensure_day_record (ensure_day_record h d).2 d =
        ensure_day_record h d := by
      simp [ensure_day_record, hupdate_hupdate]
    exact ⟨by rw [hmain], hmain⟩
  · intro h d r hr
    simp only [ensure_day_record, hr, Option.getD_some]
    refine ⟨?_, ?_, ?_, ?_, ?_, ?_, ?_, ?_, ?_⟩ <;>
      (intro v hv; simp [hv])

/-- C9 witness: in the concrete answered-day state, ensuring day 105
keeps the already-set `answered` field. -/
theorem C9_witness :
    sAnswered.file 105 = some recAnswered ∧
    recAnswered.answered = some true ∧
    (ensure_day_record sAnswered.file 105).1.answered = some true :=
  ⟨rfl, rfl,
    ((C9_ensure_day_record_idempotent.2 sAnswered.file 105 recAnswered
      rfl).2.2.2.2.1 true rfl)⟩




/-- C5: for an answered, not-yet-published day the publisher sends the
template formatted with the 1-based day offset from the start date,
with the vacation hashtag appended iff the record's day_status is
"vacation". -/
theorem C5_message_content :
    ∀ (cfg : Config) (s : BotState) (d : Int) (now : String) (r : DayRecord),
      s.file d = some r → r.answered = some true →
      r.message_sent.getD false = false →
      calculate_day_number_for_date cfg d = d - cfg.START_DATE + 1 ∧
      (check_and_send_message cfg s d now true).2 =
        some (if r.day_status = some (some "vacation") then
          formatMessage cfg (calculate_day_number_for_date cfg d) ++
            cfg.VACATION_HASHTAG
        else formatMessage cfg (calculate_day_number_for_date cfg d)) := by
  intro cfg s d now r hr hans hms
  refine ⟨rfl, ?_⟩
  cases hds : r.day_status with
  | none =>
    simp [check_and_send_message, ensure_day_record, hr, hans, hms, hds]
  | some v =>
    by_cases hv : v = some "vacation"
    · simp [check_and_send_message, ensure_day_record, hr, hans, hms, hds, hv]
    · simp [check_and_send_message, ensure_day_record, hr, hans, hms, hds, hv]

/-- C5 witness: with the start at day 100 and today = 105, the
published text is "Day 6". -/
theorem C5_witness :
    sAnswered.file 105 = some recAnswered ∧
    recAnswered.answered = some true ∧
    recAnswered.message_sent.getD false = false ∧
    (check_and_send_message cfgW sAnswered 105 "t" true).2 =
      some (if recAnswered.day_status = some (some "vacation") then
        formatMessage cfgW (calculate_day_number_for_date cfgW 105) ++
          cfgW.VACATION_HASHTAG
      else formatMessage cfgW (calculate_day_number_for_date cfgW 105)) ∧
    (check_and_send_message cfgW sAnswered 105 "t" true).2 =
      some "Day 6" :=
  ⟨rfl, rfl, rfl,
   (C5_message_content cfgW sAnswered 105 "t" recAnswered rfl rfl rfl).2,
   by decide⟩

/-- C6: recording a vacation answer and then reading the vacation
status returns true on the warm cache path and on the cold path where
the cache is empty and the value is re-derived from the file. -/
theorem C6_cache_paths_agree :
    ∀ (s : BotState) (d : Int) (src now : String),
      (get_vacation_status_for_date
        (set_day_status s d true src now) d).1 = true ∧
      (get_vacation_status_for_date
        ⟨(set_day_status s d true src now).file, fun _ => none⟩ d).1 = true := by
  intro s d src now
  constructor
  · simp [get_vacation_status_for_date, set_day_status, cupdate]
  · simp [get_vacation_status_for_date, set_day_status]

/-- C7: an authorized yes/no answer about a date other than today only
records the status via set_day_status and composes the past-date reply;
no channel message is sent and the publisher is not invoked. -/
theorem C7_past_date_answer_no_publish :
    ∀ (cfg : Config) (s : BotState) (u : Update) (t today : Int)
      (now : String) (ok : Bool),
      is_boss_user cfg u = true → t ≠ today →
      handle_callback cfg s u "vacation_yes" (some t) today now ok =
        (set_day_status s t true "boss_button" now,
         some ("Ответ получен, Босс. Заношу информацию, что день " ++
           toString t ++ " был выходным."), none) ∧
      handle_callback cfg s u "vacation_no" (some t) today now ok =
        (set_day_status s t false "boss_button" now,
         some ("Ответ получен, Босс. Заношу информацию, что день " ++
           toString t ++ " был рабочим."), none) := by
  intro cfg s u t today now ok hb hne
  constructor <;> simp [handle_callback, hb, hne]

theorem C7_witness :
    is_boss_user cfgW ⟨some ⟨1, some "boss"⟩⟩ = true ∧ (0 : Int) ≠ 5 ∧
    handle_callback cfgW initState ⟨some ⟨1, some "boss"⟩⟩
        "vacation_yes" (some 0) 5 "t" true =
      (set_day_status initState 0 true "boss_button" "t",
       some ("Ответ получен, Босс. Заношу информацию, что день " ++
         toString (0 : Int) ++ " был выходным."), none) :=
  ⟨by decide, by decide,
   (C7_past_date_answer_no_publish cfgW initState ⟨some ⟨1, some "boss"⟩⟩
     0 5 "t" true (by decide) (by decide)).1⟩




theorem answeredFlag_ensure (h : History) (d : Int) :
    (ensure_day_record h d).1.answered = some (answeredFlag h d) := by
  cases hf : h d <;>
    simp [ensure_day_record, hf, answeredFlag, emptyRecord]

theorem messageSentFlag_ensure (h : History) (d : Int) :
    (ensure_day_record h d).1.message_sent = some (messageSentFlag h d) := by
  cases hf : h d <;>
    simp [ensure_day_record, hf, messageSentFlag, emptyRecord]

/-- Case analysis of the publisher: either it is a strict no-op, or the
day was answered and unpublished, the send succeeded, and the state is
exactly the message-sent marking. -/
theorem check_cases (cfg : Config) (s : BotState) (d : Int) (now : String)
    (ok : Bool) :
    check_and_send_message cfg s d now ok = (s, none) ∨
    (answeredFlag s.file d = true ∧ messageSentFlag s.file d = false ∧
     ok = true ∧
     (check_and_send_message cfg s d now ok).1 =
       mark_message_sent_for_date s d now) := by
  by_cases ha : answeredFlag s.file d = true
  · by_cases hm : messageSentFlag s.file d = true
    · left
      simp [check_and_send_message, answeredFlag_ensure,
        messageSentFlag_ensure, ha, hm]
    · rw [Bool.not_eq_true] at hm
      by_cases hok : ok = true
      · right
        refine ⟨ha, hm, hok, ?_⟩
        simp [check_and_send_message, answeredFlag_ensure,
          messageSentFlag_ensure, ha, hm, hok]
      · rw [Bool.not_eq_true] at hok
        left
        simp [check_and_send_message, answeredFlag_ensure,
          messageSentFlag_ensure, ha, hm, hok]
  · rw [Bool.not_eq_true] at ha
    left
    simp [check_and_send_message, answeredFlag_ensure, ha]

/-- C1: once the record's message_sent flag is true the publisher is a
strict no-op, a successful publish sets that flag, and a failed send
leaves the state untouched (message_sent is marked only after a
successful send), so repeated calls send at most once in total. -/
theorem C1_publish_at_most_once :
    (∀ (cfg : Config) (s : BotState) (d : Int) (now : String) (ok : Bool),
      messageSentFlag s.file d = true →
      check_and_send_message cfg s d now ok = (s, none)) ∧
    (∀ (cfg : Config) (s : BotState) (d : Int) (now : String) (ok : Bool)
      (m : String),
      (check_and_send_message cfg s d now ok).2 = some m →
      messageSentFlag (check_and_send_message cfg s d now ok).1.file d =
        true) ∧
    (∀ (cfg : Config) (s : BotState) (d : Int) (now : String),
      check_and_send_message cfg s d now false = (s, none)) := by
  refine ⟨?_, ?_, ?_⟩
  · intro cfg s d now ok hms
    rcases check_cases cfg s d now ok with h | ⟨_, hflag, _, _⟩
    · exact h
    · rw [hms] at hflag
      exact absurd hflag (by simp)
  · intro cfg s d now ok m hm
    rcases check_cases cfg s d now ok with h | ⟨_, _, _, hstate⟩
    · rw [h] at hm
      simp at hm
    · rw [hstate]
      simp [mark_message_sent_for_date, messageSentFlag]
  · intro cfg s d now
    rcases check_cases cfg s d now false with h | ⟨_, _, hok, _⟩
    · exact h
    · exact absurd hok (by simp)

/-- C1 witness: publishing for day 105 succeeds once, and immediately
after that the publisher is a strict no-op. -/
theorem C1_witness :
    messageSentFlag
      (check_and_send_message cfgW sAnswered 105 "t" true).1.file 105 =
        true ∧
    check_and_send_message cfgW
        (check_and_send_message cfgW sAnswered 105 "t" true).1 105 "u" true =
      ((check_and_send_message cfgW sAnswered 105 "t" true).1, none) :=
  ⟨by decide,
   C1_publish_at_most_once.1 cfgW
     (check_and_send_message cfgW sAnswered 105 "t" true).1 105 "u" true
     (by decide)⟩

/-- C2: the publisher is a strict no-op while the record is unanswered,
and in every state reachable through the store's operations a set
message_sent flag implies a set answered flag (message_sent can only
have become true after answered was). -/
theorem C2_publish_requires_answer :
    (∀ (cfg : Config) (s : BotState) (d : Int) (now : String) (ok : Bool),
      answeredFlag s.file d = false →
      check_and_send_message cfg s d now ok = (s, none)) ∧
    (∀ (cfg : Config) (s : BotState), Reachable cfg s →
      ∀ d, messageSentFlag s.file d = true →
        answeredFlag s.file d = true) := by
  constructor
  · intro cfg s d now ok hna
    simp [check_and_send_message, answeredFlag_ensure, hna]
  · intro cfg s hr
    induction hr with
    | init =>
      intro d hms
      simp [initState, emptyHistory, messageSentFlag] at hms
    | step_set s d v src now _ ih =>
      intro k hms
      by_cases hk : k = d
      · subst hk
        simp [set_day_status, answeredFlag]
      · simp only [set_day_status] at hms ⊢
        simp only [messageSentFlag, answeredFlag,
          hupdate_other _ _ _ _ hk] at hms ⊢
        exact ih k hms
    | step_get s d _ ih =>
      intro k hms
      have hfile : (get_vacation_status_for_date s d).2.file = s.file := by
        unfold get_vacation_status_for_date
        rcases s.cache d with _ | b
        · rcases s.file d with _ | r <;> rfl
        · rfl
      rw [hfile] at hms ⊢
      exact ih k hms
    | step_markq s d now _ ih =>
      intro k hms
      by_cases hk : k = d
      · subst hk
        simp only [mark_question_sent_for_date] at hms ⊢
        simp only [messageSentFlag, answeredFlag, hupdate_self,
          messageSentFlag_ensure, answeredFlag_ensure,
          Option.getD_some] at hms ⊢
        exact ih k hms
      · simp only [mark_question_sent_for_date] at hms ⊢
        simp only [messageSentFlag, answeredFlag,
          hupdate_other _ _ _ _ hk] at hms ⊢
        exact ih k hms
    | step_check s d now ok _ ih =>
      intro k hms
      rcases check_cases cfg s d now ok with h | ⟨ha, _, _, hstate⟩
      · rw [h] at hms ⊢
        exact ih k hms
      · rw [hstate] at hms ⊢
        by_cases hk : k = d
        · subst hk
          simp only [mark_message_sent_for_date] at hms ⊢
          simp only [answeredFlag, hupdate_self, answeredFlag_ensure,
            Option.getD_some]
          exact ha
        · simp only [mark_message_sent_for_date] at hms ⊢
          simp only [messageSentFlag, answeredFlag,
            hupdate_other _ _ _ _ hk] at hms ⊢
          exact ih k hms

/-- C2 witness: the publisher is a no-op on the unanswered initial
state, and in the concrete reachable published state both flags hold
for day 105. -/
theorem C2_witness :
    (answeredFlag initState.file 0 = false ∧
     check_and_send_message cfgW initState 0 "t" true =
       (initState, none)) ∧
    (messageSentFlag sPublished.file 105 = true ∧
     answeredFlag sPublished.file 105 = true) :=
  ⟨⟨by decide,
    C2_publish_requires_answer.1 cfgW initState 0 "t" true (by decide)⟩,
   ⟨by decide,
    C2_publish_requires_answer.2 cfgW sPublished
      (Reachable.step_check _ 105 "t" true
        (Reachable.step_set initState 105 true "boss_button" "t"
          Reachable.init))
      105 (by decide)⟩⟩


end GameCounter
